import Mathlib

/-!
Shallow embedding of the opex-debt-scanner analytics pipeline
(src/validators.py, src/metrics.py, src/strategies.py, src/app.py).

Numbers are modelled as exact rationals.  pandas / numpy / python
round-half-even rounding (`round(x, p)`, `.round(p)`) is modelled exactly
on ℚ by `roundq`.  Where app.py duplicates a function of metrics.py with
different behaviour, the app.py copy is embedded under an `app_` prefix.
-/

/-- Round-half-even of a rational to an integer, as numpy and python
`round` do (ties go to the even integer).  `Rat.floor` is used instead of
`⌊·⌋` so that the definition reduces inside the kernel; the two agree
(`ratFloor_eq` below). -/
def halfEven (x : ℚ) : ℤ :=
  if x - x.floor < 1/2 then x.floor
  else if 1/2 < x - x.floor then x.floor + 1
  else if x.floor % 2 = 0 then x.floor else x.floor + 1

/-- Round `x` to `p` decimal places, half to even: the exact-rational model
of numpy `.round(p)` and python `round(x, p)`. -/
def roundq (p : ℕ) (x : ℚ) : ℚ := (halfEven (x * 10 ^ p) : ℚ) / 10 ^ p

/-- pandas `.clip(lo, hi)` on a scalar. -/
def clipQ (x lo hi : ℚ) : ℚ := min (max x lo) hi

/-- The health-score record returned by src/metrics.py `generate_health_score`
(lines 185-218): overall score, status label and the three sub-scores as they
are stored in the returned dict (the sub-scores are stored rounded to 1
decimal). -/
structure HealthScore where
  health_score : ℚ
  health_status : String
  error_score : ℚ
  compliance_score : ℚ
  trend_score : ℚ
deriving DecidableEq, Repr

/-- src/metrics.py `generate_health_score` (lines 185-218):
`error_score = max(0, 100 - error_rate * 2)`,
`compliance_score = compliance_rate`,
`trend_score = max(0, 100 - abs(trend_slope) * 0.5)`,
`overall_score = round((error_score + compliance_score + trend_score) / 3, 1)`,
label `Excellent 🟢` if overall ≥ 80 else `Good 🟡` if ≥ 60 else `Poor 🔴`;
the dict stores the three sub-scores rounded to 1 decimal. -/
def generate_health_score (error_rate compliance_rate trend_slope : ℚ) : HealthScore :=
  let error_score := max 0 (100 - error_rate * 2)
  let compliance_score := compliance_rate
  let trend_score := max 0 (100 - |trend_slope| * (1/2))
  let overall_score := roundq 1 ((error_score + compliance_score + trend_score) / 3)
  let health := if 80 ≤ overall_score then "Excellent 🟢"
                else if 60 ≤ overall_score then "Good 🟡"
                else "Poor 🔴"
  ⟨overall_score, health, roundq 1 error_score, roundq 1 compliance_score, roundq 1 trend_score⟩

/-- Arithmetic mean of a list, `Series.mean()`: sum divided by length
(0 for the empty list, where pandas would give NaN; never used on empty
input by the claims below). -/
def meanQ (xs : List ℚ) : ℚ := xs.sum / (xs.length : ℚ)

/-- pandas `Series.quantile(p)` with the default linear interpolation:
on the sorted values `s₀ ≤ … ≤ s_{n-1}` it returns
`s_i + (h - i) * (s_{i+1} - s_i)` where `h = p * (n - 1)` and `i = ⌊h⌋`.
Returns 0 on the empty list (pandas yields NaN there; the claims below
never rely on that case). -/
def quantile (xs : List ℚ) (p : ℚ) : ℚ :=
  if xs.isEmpty then 0
  else
    let s := xs.insertionSort (· ≤ ·)
    let n := xs.length
    let hpos := p * ((n : ℚ) - 1)
    let i := (Rat.floor hpos).toNat
    if i + 1 < n then s.getD i 0 + (hpos - (i : ℚ)) * (s.getD (i+1) 0 - s.getD i 0)
    else s.getD i 0

/-- pandas `Series.min()` (0 on empty input, never relied on). -/
def listMin (xs : List ℚ) : ℚ :=
  match xs with
  | [] => 0
  | h :: t => t.foldl min h

/-- pandas `Series.max()` (0 on empty input, never relied on). -/
def listMax (xs : List ℚ) : ℚ :=
  match xs with
  | [] => 0
  | h :: t => t.foldl max h

/-- pandas `Series.unique()`: the distinct values in order of first
occurrence (also the iteration order of `groupby` keys as far as the
claims below are concerned: they only look entries up by key, so the
fact that pandas `groupby` sorts its keys is immaterial here). -/
def uniqueKeys : List String → List String
  | [] => []
  | e :: rest => e :: (uniqueKeys rest).filter (fun x => x != e)

/-- A row of the raw uploaded table.  `none` in `latency`/`status`/`endpoint`
models a NaN cell; `none` in `timestamp` models an entry on which
`pd.to_datetime` raises (a parsed timestamp is abstracted to a rational). -/
structure RawRecord where
  timestamp : Option ℚ
  endpoint : Option String
  latency : Option ℚ
  status : Option ℚ
deriving DecidableEq, Repr

/-- The raw uploaded DataFrame: its column names, the pandas dtype checks
`is_numeric_dtype` for the `Latency_ms` and `Status` columns as booleans,
and its rows. -/
structure RawDF where
  cols : List String
  latencyNumeric : Bool
  statusNumeric : Bool
  rows : List RawRecord
deriving DecidableEq, Repr

/-- The required columns of src/validators.py `validate_csv` (line 21).
The python source keeps them in a `set`; the claims below never depend on
set iteration order, so a fixed order is used for the error message. -/
def requiredCols : List String := ["Timestamp", "Endpoint", "Latency_ms", "Status"]

/-- `(df['Latency_ms'] < 0)` for one row: NaN compares false. -/
def hasNegLatency (r : RawRecord) : Bool :=
  match r.latency with
  | some x => decide (x < 0)
  | none => false

/-- `df['Status'].isin(range(100, 600))` for one row: the value must equal
an integer between 100 and 599; NaN is not in the range. -/
def statusInRange (r : RawRecord) : Bool :=
  match r.status with
  | some s => s.den == 1 && decide ((100 : ℚ) ≤ s) && decide (s ≤ (599 : ℚ))
  | none => false

/-- src/validators.py `validate_csv` (lines 6-55): the checks in source
order, short-circuiting on the first failure; on success the message
carries the record count.  The function is pure: it only reads `df`. -/
def validate_csv (df : RawDF) : Bool × String :=
  if df.rows.isEmpty then (false, "❌ Empty dataset provided")
  else if !(requiredCols.filter (fun c => !df.cols.contains c)).isEmpty then
    (false, "❌ Missing columns: "
      ++ String.intercalate ", " (requiredCols.filter (fun c => !df.cols.contains c)))
  else if !df.latencyNumeric then (false, "❌ Latency_ms must be numeric")
  else if !df.statusNumeric then (false, "❌ Status must be numeric")
  else if df.rows.any hasNegLatency then (false, "❌ Latency cannot be negative")
  else if !df.rows.all statusInRange then
    (false, "❌ Invalid HTTP status codes (must be 100-599)")
  else if df.rows.any (fun r => r.endpoint.isNone) then (false, "❌ Missing endpoint names")
  else if !df.rows.all (fun r => r.timestamp.isSome) then
    (false, "❌ Invalid timestamp format (try YYYY-MM-DD HH:MM:SS)")
  else (true, "✅ Valid dataset: " ++ toString df.rows.length ++ " records")

/-- The validation checks as the spec lists them, in order: for each check,
whether it passes, and the message reported when it is the first to fail. -/
def checkResults (df : RawDF) : List (Bool × String) :=
  [(!df.rows.isEmpty, "❌ Empty dataset provided"),
   ((requiredCols.filter (fun c => !df.cols.contains c)).isEmpty,
     "❌ Missing columns: "
       ++ String.intercalate ", " (requiredCols.filter (fun c => !df.cols.contains c))),
   (df.latencyNumeric, "❌ Latency_ms must be numeric"),
   (df.statusNumeric, "❌ Status must be numeric"),
   (!df.rows.any hasNegLatency, "❌ Latency cannot be negative"),
   (df.rows.all statusInRange, "❌ Invalid HTTP status codes (must be 100-599)"),
   (!df.rows.any (fun r => r.endpoint.isNone), "❌ Missing endpoint names"),
   (df.rows.all (fun r => r.timestamp.isSome),
     "❌ Invalid timestamp format (try YYYY-MM-DD HH:MM:SS)")]

/-- The message of the first failing check, if any. -/
def firstFailure (checks : List (Bool × String)) : Option String :=
  (checks.find? (fun c => !c.1)).map (fun c => c.2)

/-- `df.dropna(subset=['Latency_ms', 'Status', 'Endpoint'])` for one row. -/
def keepRow (r : RawRecord) : Bool :=
  r.latency.isSome && r.status.isSome && r.endpoint.isSome

/-- src/validators.py `clean_data` (lines 58-85): drop rows with null
latency/status/endpoint, coerce the timestamp column (the identity in this
model, where kept timestamps are already parsed), then, if `cap_outliers`,
clip latency from above at the 99th percentile of the kept latencies, and
finally clip it from below at 10. -/
def clean_data (rows : List RawRecord) (cap_outliers : Bool) : List RawRecord :=
  let kept := rows.filter keepRow
  let q99 := quantile (kept.filterMap (fun r => r.latency)) (99/100)
  kept.map (fun r =>
    { r with latency := r.latency.map (fun x =>
        max (if cap_outliers then min x q99 else x) 10) })

/-- Concrete valid dataset with latencies 10, 10, 1000 used to settle the
idempotence claim about `clean_data`. -/
def exCleanDF : RawDF :=
  ⟨["Timestamp", "Endpoint", "Latency_ms", "Status"], true, true,
   [⟨some 0, some "/a", some 10, some 200⟩,
    ⟨some 1, some "/a", some 10, some 200⟩,
    ⟨some 2, some "/a", some 1000, some 200⟩]⟩

/-- A row of the annotated dataset produced by the anomaly detector in
src/app.py: its latency and its `is_anomaly` flag (the only columns the
baseline computation reads). -/
structure ARecord where
  latency : ℚ
  is_anomaly : Bool
deriving DecidableEq, Repr

/-- src/app.py lines 271-276: `normal = processed_df[processed_df['is_anomaly'] == False]`;
`baseline_latency = processed_df['Latency_ms'].quantile(0.25)` if `normal`
is empty, else `normal['Latency_ms'].mean()`. -/
def baseline_latency (rows : List ARecord) : ℚ :=
  let normal := rows.filter (fun r => r.is_anomaly == false)
  if normal.isEmpty then quantile (rows.map (fun r => r.latency)) (1/4)
  else meanQ (normal.map (fun r => r.latency))

/-- Concrete annotated dataset with one normal and one anomalous record. -/
def exBaselineRows : List ARecord := [⟨100, false⟩, ⟨1000, true⟩]

/-- An anomalous record as consumed by the impact/severity functions: only
its `Endpoint` and `Latency_ms` columns are read. -/
structure Anom where
  endpoint : String
  latency : ℚ
deriving DecidableEq, Repr

/-- One value of the ROI dict of src/metrics.py `calculate_roi_potential`
(lines 74-104). -/
structure ROIEntry where
  wasted_hours : ℚ
  potential_savings : ℚ
  anomaly_count : ℕ
deriving DecidableEq, Repr

/-- The loop body of src/metrics.py `calculate_roi_potential` (lines 92-102)
for one endpoint: `wasted_ms = (endpoint_anomalies['Latency_ms'] - baseline).sum()`
(note: no flooring at 0), `wasted_hours = wasted_ms / (1000*60*60)`,
`potential_savings = wasted_hours * hourly_rate`, both rounded to 2 decimals,
plus the anomaly count. -/
def roiEntryFor (anomalies : List Anom) (baseline hourly_rate : ℚ) (endpoint : String) :
    ROIEntry :=
  let endpoint_anomalies := anomalies.filter (fun a => a.endpoint == endpoint)
  let wasted_ms := (endpoint_anomalies.map (fun a => a.latency - baseline)).sum
  let wasted_hours := wasted_ms / (1000 * 60 * 60)
  let potential_savings := wasted_hours * hourly_rate
  ⟨roundq 2 wasted_hours, roundq 2 potential_savings, endpoint_anomalies.length⟩

/-- src/metrics.py `calculate_roi_potential` (lines 74-104): one ROI entry
per distinct endpoint of `anomalies['Endpoint'].unique()`. -/
def calculate_roi_potential (anomalies : List Anom) (baseline hourly_rate : ℚ) :
    List (String × ROIEntry) :=
  (uniqueKeys (anomalies.map (fun a => a.endpoint))).map
    (fun endpoint => (endpoint, roiEntryFor anomalies baseline hourly_rate endpoint))

/-- One value of the ROI dict of the app.py duplicate `calculate_roi_potential`
(lines 195-212), which stores no anomaly count. -/
structure AppROIEntry where
  wasted_hours : ℚ
  potential_savings : ℚ
deriving DecidableEq, Repr

/-- The loop body of src/app.py `calculate_roi_potential` (lines 199-210):
identical formulas to the metrics.py version but without the anomaly count. -/
def app_roiEntryFor (anomalies : List Anom) (baseline hourly_rate : ℚ) (endpoint : String) :
    AppROIEntry :=
  let endpoint_anomalies := anomalies.filter (fun a => a.endpoint == endpoint)
  let wasted_ms := (endpoint_anomalies.map (fun a => a.latency - baseline)).sum
  let wasted_hours := wasted_ms / (1000 * 60 * 60)
  let potential_savings := wasted_hours * hourly_rate
  ⟨roundq 2 wasted_hours, roundq 2 potential_savings⟩

/-- src/app.py `calculate_roi_potential` (lines 195-212). -/
def app_calculate_roi_potential (anomalies : List Anom) (baseline hourly_rate : ℚ) :
    List (String × AppROIEntry) :=
  (uniqueKeys (anomalies.map (fun a => a.endpoint))).map
    (fun endpoint => (endpoint, app_roiEntryFor anomalies baseline hourly_rate endpoint))

/-- Concrete anomaly set for the ROI claim: endpoint `/a` lies 99990 ms below
the baseline 100000, endpoint `/b` lies 49000 ms above it. -/
def exRoiAnoms : List Anom := [⟨"/a", 10⟩, ⟨"/b", 149000⟩]

/-- A row of the (processed) log table as consumed by
`calculate_endpoint_metrics`: endpoint, latency and status. -/
structure LogRow where
  endpoint : String
  latency : ℚ
  status : ℚ
deriving DecidableEq, Repr

/-- One row of the per-endpoint metrics table (src/metrics.py lines 18-26).
The `Std_Dev` column is omitted from the model: it is an irrational square
root, and no claim mentions it. -/
structure EPMetrics where
  Mean_Latency : ℚ
  Median_Latency : ℚ
  Min_Latency : ℚ
  Max_Latency : ℚ
  Total_Requests : ℕ
  Error_Count : ℕ
  Error_Rate : ℚ
deriving DecidableEq, Repr

/-- The aggregation of src/metrics.py `calculate_endpoint_metrics`
(lines 8-27) for one endpoint group: mean/median/min/max of latency
rounded to 2 decimals, the request count, `Error_Count = (Status >= 500).sum()`
(all 5xx codes) and `Error_Rate = round(Error_Count / Total_Requests * 100, 2)`. -/
def epMetricsFor (rows : List LogRow) (endpoint : String) : EPMetrics :=
  let g := rows.filter (fun r => r.endpoint == endpoint)
  let lats := g.map (fun r => r.latency)
  let errorCount := g.countP (fun r => decide ((500 : ℚ) ≤ r.status))
  ⟨roundq 2 (meanQ lats), roundq 2 (quantile lats (1/2)),
   roundq 2 (listMin lats), roundq 2 (listMax lats),
   g.length, errorCount,
   roundq 2 ((errorCount : ℚ) / (g.length : ℚ) * 100)⟩

/-- src/metrics.py `calculate_endpoint_metrics` (lines 8-27): one row per
distinct endpoint.  The claims below access the table by key, so the model
enumerates the keys in first-occurrence order (pandas `groupby` sorts them;
either way the looked-up row is the same). -/
def calculate_endpoint_metrics (rows : List LogRow) : List (String × EPMetrics) :=
  (uniqueKeys (rows.map (fun r => r.endpoint))).map
    (fun endpoint => (endpoint, epMetricsFor rows endpoint))

/-- The aggregation of the app.py duplicate `calculate_endpoint_metrics`
(lines 168-181) for one endpoint group: identical to the metrics.py version
except that `Error_Count = (Status == 500).sum()` counts only status 500. -/
def app_epMetricsFor (rows : List LogRow) (endpoint : String) : EPMetrics :=
  let g := rows.filter (fun r => r.endpoint == endpoint)
  let lats := g.map (fun r => r.latency)
  let errorCount := g.countP (fun r => r.status == (500 : ℚ))
  ⟨roundq 2 (meanQ lats), roundq 2 (quantile lats (1/2)),
   roundq 2 (listMin lats), roundq 2 (listMax lats),
   g.length, errorCount,
   roundq 2 ((errorCount : ℚ) / (g.length : ℚ) * 100)⟩

/-- src/app.py `calculate_endpoint_metrics` (lines 168-181). -/
def app_calculate_endpoint_metrics (rows : List LogRow) : List (String × EPMetrics) :=
  (uniqueKeys (rows.map (fun r => r.endpoint))).map
    (fun endpoint => (endpoint, app_epMetricsFor rows endpoint))

/-- src/metrics.py `calculate_anomaly_severity` (lines 54-71): pairs every
anomalous record with
`round(clip((Latency_ms - baseline) / max(baseline, 1) * 100, 0, 100), 1)`. -/
def calculate_anomaly_severity (anomalies : List Anom) (baseline : ℚ) :
    List (Anom × ℚ) :=
  anomalies.map (fun a =>
    (a, roundq 1 (clipQ ((a.latency - baseline) / max baseline 1 * 100) 0 100)))

/-- src/app.py `calculate_anomaly_severity` (lines 183-193): the duplicate
divides by `baseline` itself, without the `max(baseline, 1)` guard.  Division
by zero is 0 in ℚ where pandas would produce inf/NaN, so the theorems about
this variant assume `0 < baseline`, where the two semantics agree. -/
def app_calculate_anomaly_severity (anomalies : List Anom) (baseline : ℚ) :
    List (Anom × ℚ) :=
  anomalies.map (fun a =>
    (a, roundq 1 (clipQ ((a.latency - baseline) / baseline * 100) 0 100)))

/-- One strategy of src/strategies.py `STRATEGY_PATTERNS` (lines 5-46). -/
structure StrategyT where
  immediate : String
  root_cause : String
  long_term : String
deriving DecidableEq, Repr

def searchQueryStrategy : StrategyT :=
  ⟨"Implement Redis/Memcached layer for query results caching",
   "ElasticSearch indices unoptimized, missing shards, or network latency",
   "Migrate to event-driven CQRS pattern with projection layer"⟩

def reportExportStrategy : StrategyT :=
  ⟨"Move to async job queue (Celery/Bull/RQ) to unblock HTTP threads",
   "Large dataset aggregation blocking request, slow aggregation pipeline",
   "Implement materialized views or data warehouse with hourly refreshes"⟩

def transactionPaymentStrategy : StrategyT :=
  ⟨"Add timeout handling and implement retry logic with exponential backoff",
   "External payment processor delays, network issues, or unoptimized database queries",
   "Isolate transaction processing into dedicated microservice with circuit breakers"⟩

def authLoginStrategy : StrategyT :=
  ⟨"Implement token caching with short TTL (Redis)",
   "Identity provider latency or excessive permission checks (N+1 queries)",
   "Adopt passwordless authentication (WebAuthn) or federation"⟩

def uploadFileStrategy : StrategyT :=
  ⟨"Stream uploads directly to S3/Cloud Storage; validate client-side",
   "Processing files before persisting to storage, or single-threaded uploads",
   "Implement chunked multi-part uploads with resumable progress tracking"⟩

def profileUserStrategy : StrategyT :=
  ⟨"Cache user profiles in distributed cache (Redis) with 5-min TTL",
   "Repeated database lookups for profile data, unindexed queries",
   "Implement event-sourced user projections with eventual consistency"⟩

def notificationEmailStrategy : StrategyT :=
  ⟨"Move to message queue (RabbitMQ/Kafka) for async processing",
   "Blocking HTTP waits for notification delivery",
   "Implement event-driven notification system with retry queues"⟩

def databaseSqlStrategy : StrategyT :=
  ⟨"Add query result caching and implement connection pooling",
   "Missing database indexes, connection pool exhaustion, or slow queries",
   "Shard database, implement read replicas, or migrate to NoSQL where appropriate"⟩

/-- src/strategies.py `STRATEGY_PATTERNS` (lines 5-46) in table-definition
order (python dicts iterate in insertion order). -/
def STRATEGY_PATTERNS : List (String × StrategyT) :=
  [("search|query", searchQueryStrategy),
   ("report|export", reportExportStrategy),
   ("transaction|payment|checkout", transactionPaymentStrategy),
   ("auth|login|oauth|jwt", authLoginStrategy),
   ("upload|file|media", uploadFileStrategy),
   ("profile|user|account", profileUserStrategy),
   ("notification|email|sms", notificationEmailStrategy),
   ("database|sql", databaseSqlStrategy)]

/-- Whether `pat` occurs at the head of `s` (character lists). -/
def chStarts : List Char → List Char → Bool
  | [], _ => true
  | _ :: _, [] => false
  | a :: as, b :: bs => (a == b) && chStarts as bs

/-- Python `pat in s`: whether `pat` occurs as a contiguous substring. -/
def chHas (pat : List Char) : List Char → Bool
  | [] => pat.isEmpty
  | b :: bs => chStarts pat (b :: bs) || chHas pat bs

/-- Python `str.lower()` (character-wise; endpoints are ASCII). -/
def lowerStr (s : String) : String := String.mk (s.data.map Char.toLower)

/-- Python `pattern.split('|')`. -/
def splitKeywords (pat : String) : List String :=
  (pat.data.splitOn '|').map (fun cs => String.mk cs)

/-- Python `keyword in endpoint_lower` on strings. -/
def containsSub (s kw : String) : Bool := chHas kw.data s.data

/-- Whether any pipe-delimited keyword of `pat` occurs in the (already
lower-cased) endpoint. -/
def groupMatches (endpoint_lower : String) (pat : String) : Bool :=
  (splitKeywords pat).any (fun kw => containsSub endpoint_lower kw)

/-- The three formatted plan steps built from a matched strategy
(src/strategies.py lines 66-70). -/
def planFor (st : StrategyT) : List String :=
  ["**⚡ Immediate Mitigation:** " ++ st.immediate,
   "**🔍 Root Cause Analysis:** " ++ st.root_cause,
   "**🚀 Long Term Strategy:** " ++ st.long_term]

/-- The default/fallback plan (src/strategies.py lines 74-78). -/
def fallbackPlan (worst_endpoint : String) : List String :=
  ["**⚡ Immediate Mitigation:** Review application logs for `" ++ worst_endpoint
     ++ "` during high-latency windows. Add detailed APM instrumentation.",
   "**🔍 Root Cause Analysis:** Check CPU/memory saturation on host nodes. Verify connection pool exhaustion (increase max_pool_size or implement PgBouncer).",
   "**🚀 Long Term Strategy:** Profile `" ++ worst_endpoint
     ++ "` with flame graphs. Consider horizontal scaling or request queuing."]

/-- src/strategies.py `get_strategy_for_endpoint` (lines 49-79): lower-case
the endpoint, scan `STRATEGY_PATTERNS` in order and return the plan of the
first group any of whose keywords occurs as a substring; otherwise the
fallback plan. -/
def get_strategy_for_endpoint (worst_endpoint : String) : String × List String :=
  let endpoint_lower := lowerStr worst_endpoint
  match STRATEGY_PATTERNS.find? (fun ps => groupMatches endpoint_lower ps.1) with
  | some ps => (worst_endpoint, planFor ps.2)
  | none => (worst_endpoint, fallbackPlan worst_endpoint)

/-- One SLA template of src/strategies.py `SLA_TEMPLATES` (lines 134-153). -/
structure SLATemplate where
  p50 : ℚ
  p95 : ℚ
  p99 : ℚ
  description : String
deriving DecidableEq, Repr

def standardSLA : SLATemplate := ⟨200, 500, 1000, "Typical web applications and APIs"⟩

/-- src/strategies.py `SLA_TEMPLATES` (lines 134-153) as a keyed lookup. -/
def SLA_TEMPLATES (name : String) : Option SLATemplate :=
  if name = "aggressive" then
    some ⟨100, 250, 500,
      "High-performance, low-latency systems (e.g., real-time trading, live gaming)"⟩
  else if name = "standard" then some standardSLA
  else if name = "relaxed" then
    some ⟨500, 2000, 5000, "Background jobs, batch processing, non-critical systems"⟩
  else none

/-- The percentiles dict handed to `evaluate_against_sla`: `none` models a
missing key (the function reads only `P50`, `P95` and `P99`). -/
structure PercentilesDict where
  P50 : Option ℚ
  P95 : Option ℚ
  P99 : Option ℚ
deriving DecidableEq, Repr

/-- The compliance dict returned by `evaluate_against_sla`. -/
structure SLAResult where
  p50_compliant : Bool
  p95_compliant : Bool
  p99_compliant : Bool
  sla_level : String
  sla_description : String
  all_compliant : Bool
deriving DecidableEq, Repr

/-- src/strategies.py `evaluate_against_sla` (lines 156-179):
`sla = SLA_TEMPLATES.get(sla_level, SLA_TEMPLATES["standard"])`, each of
P50/P95/P99 is compliant iff `percentiles.get(key, 0) <= threshold`, and
`all_compliant` is their conjunction. -/
def evaluate_against_sla (percentiles : PercentilesDict) (sla_level : String) : SLAResult :=
  let sla := (SLA_TEMPLATES sla_level).getD standardSLA
  let p50c := decide (percentiles.P50.getD 0 ≤ sla.p50)
  let p95c := decide (percentiles.P95.getD 0 ≤ sla.p95)
  let p99c := decide (percentiles.P99.getD 0 ≤ sla.p99)
  ⟨p50c, p95c, p99c, sla_level, sla.description, p50c && p95c && p99c⟩

/-- The named SLA levels of the template table. -/
def namedSLALevels : List String := ["aggressive", "standard", "relaxed"]

/-- The template the spec says is used: the named one when the level is one
of aggressive/standard/relaxed, the standard one otherwise. -/
def claimTemplateFor (lvl : String) : SLATemplate :=
  if lvl ∈ namedSLALevels then (SLA_TEMPLATES lvl).getD standardSLA else standardSLA

/-- Concrete log table with a single 502 response, used to settle the
`Error_Count` claim against the app.py duplicate. -/
def exLogRows : List LogRow := [⟨"/a", 100, 502⟩]

theorem ratFloor_eq (x : ℚ) : (x.floor : ℤ) = ⌊x⌋ := by
  rw [Rat.floor_def, Rat.floor_def']

theorem halfEven_bounds (x : ℚ) : ⌊x⌋ ≤ halfEven x ∧ halfEven x ≤ ⌈x⌉ := by
  have hfc : ⌊x⌋ ≤ ⌈x⌉ := Int.floor_le_ceil x
  have hsucc : 0 < x - ⌊x⌋ → ⌊x⌋ + 1 ≤ ⌈x⌉ := by
    intro h
    have h1 : (⌊x⌋ : ℚ) < x := by linarith
    have h2 : (⌊x⌋ : ℚ) < (⌈x⌉ : ℚ) := lt_of_lt_of_le h1 (Int.le_ceil x)
    exact_mod_cast Int.add_one_le_of_lt (by exact_mod_cast h2)
  unfold halfEven
  rw [ratFloor_eq]
  split_ifs with h1 h2 h3
  · exact ⟨le_refl _, hfc⟩
  · exact ⟨by omega, hsucc (by linarith)⟩
  · exact ⟨le_refl _, hfc⟩
  · exact ⟨by omega, hsucc (by linarith)⟩

theorem roundq_nonneg (p : ℕ) (x : ℚ) (hx : 0 ≤ x) : 0 ≤ roundq p x := by
  unfold roundq
  have h1 : (0 : ℤ) ≤ ⌊x * 10 ^ p⌋ := Int.floor_nonneg.mpr (by positivity)
  have h2 := (halfEven_bounds (x * 10 ^ p)).1
  have h3 : (0 : ℚ) ≤ (halfEven (x * 10 ^ p) : ℚ) := by exact_mod_cast le_trans h1 h2
  positivity

theorem roundq_le_of_le (p : ℕ) (B : ℤ) (x : ℚ) (hx : x ≤ B) : roundq p x ≤ B := by
  unfold roundq
  have hpow : (0 : ℚ) < 10 ^ p := by positivity
  have h1 : x * 10 ^ p ≤ (B : ℚ) * 10 ^ p :=
    mul_le_mul_of_nonneg_right hx (le_of_lt hpow)
  have h2 : ⌈x * 10 ^ p⌉ ≤ B * 10 ^ p := by
    apply Int.ceil_le.mpr
    push_cast
    exact h1
  have h3 := (halfEven_bounds (x * 10 ^ p)).2
  have h4 : (halfEven (x * 10 ^ p) : ℚ) ≤ (B : ℚ) * 10 ^ p := by
    exact_mod_cast le_trans h3 h2
  rw [div_le_iff₀ hpow]
  exact h4

theorem roundq_in_0_100 (p : ℕ) (x : ℚ) (h1 : 0 ≤ x) (h2 : x ≤ 100) :
    0 ≤ roundq p x ∧ roundq p x ≤ 100 := by
  refine ⟨roundq_nonneg p x h1, ?_⟩
  have h3 : x ≤ ((100 : ℤ) : ℚ) := by exact_mod_cast h2
  have h4 := roundq_le_of_le p 100 x h3
  exact_mod_cast h4

/-- Claim C6 counterexample: the claim says `generate_health_score` returns
`error_score = max(0, 100 - error_rate * 2)`, but the returned dict stores the
sub-score rounded to 1 decimal: at `error_rate = 1/200` the formula gives
99.99 while the function returns 100. -/
theorem health_score_counterexample :
    (generate_health_score (1/200) 100 0).error_score ≠ max 0 (100 - (1/200) * 2) := by
  have h : (generate_health_score (1/200) 100 0).error_score = 100 := by
    show roundq 1 (max 0 (100 - (1/200) * 2)) = 100
    norm_num [roundq, halfEven, ratFloor_eq, max_def]
  rw [h]
  norm_num [max_def]

/-- Claim C6 (amended): for `error_rate ∈ [0,100]`, `compliance_rate ∈ [0,100]`
and any slope, `generate_health_score` returns the three sub-scores
`max(0, 100 - error_rate*2)`, `compliance_rate`, `max(0, 100 - |slope|*0.5)`
each rounded to 1 decimal, an overall score equal to the unweighted mean of
the three unrounded sub-scores rounded to 1 decimal, every component and the
overall score lie in [0,100], and the status label is `Excellent 🟢` iff
overall ≥ 80, `Good 🟡` iff 60 ≤ overall < 80, and `Poor 🔴` otherwise. -/
theorem health_score_spec (error_rate compliance_rate trend_slope : ℚ)
    (h1 : 0 ≤ error_rate) (h2 : error_rate ≤ 100)
    (h3 : 0 ≤ compliance_rate) (h4 : compliance_rate ≤ 100) :
    (generate_health_score error_rate compliance_rate trend_slope).error_score
        = roundq 1 (max 0 (100 - error_rate * 2)) ∧
    (generate_health_score error_rate compliance_rate trend_slope).compliance_score
        = roundq 1 compliance_rate ∧
    (generate_health_score error_rate compliance_rate trend_slope).trend_score
        = roundq 1 (max 0 (100 - |trend_slope| * (1/2))) ∧
    (generate_health_score error_rate compliance_rate trend_slope).health_score
        = roundq 1 ((max 0 (100 - error_rate * 2) + compliance_rate
            + max 0 (100 - |trend_slope| * (1/2))) / 3) ∧
    (0 ≤ (generate_health_score error_rate compliance_rate trend_slope).error_score ∧
      (generate_health_score error_rate compliance_rate trend_slope).error_score ≤ 100) ∧
    (0 ≤ (generate_health_score error_rate compliance_rate trend_slope).compliance_score ∧
      (generate_health_score error_rate compliance_rate trend_slope).compliance_score ≤ 100) ∧
    (0 ≤ (generate_health_score error_rate compliance_rate trend_slope).trend_score ∧
      (generate_health_score error_rate compliance_rate trend_slope).trend_score ≤ 100) ∧
    (0 ≤ (generate_health_score error_rate compliance_rate trend_slope).health_score ∧
      (generate_health_score error_rate compliance_rate trend_slope).health_score ≤ 100) ∧
    ((generate_health_score error_rate compliance_rate trend_slope).health_status
        = "Excellent 🟢" ↔
      80 ≤ (generate_health_score error_rate compliance_rate trend_slope).health_score) ∧
    ((generate_health_score error_rate compliance_rate trend_slope).health_status
        = "Good 🟡" ↔
      (60 ≤ (generate_health_score error_rate compliance_rate trend_slope).health_score ∧
        (generate_health_score error_rate compliance_rate trend_slope).health_score < 80)) ∧
    ((generate_health_score error_rate compliance_rate trend_slope).health_status
        = "Poor 🔴" ↔
      (generate_health_score error_rate compliance_rate trend_slope).health_score < 60) := by
  have he1 : (0 : ℚ) ≤ max 0 (100 - error_rate * 2) := le_max_left 0 _
  have he2 : max 0 (100 - error_rate * 2) ≤ (100 : ℚ) := by
    have : (0:ℚ) ≤ error_rate * 2 := by positivity
    apply max_le <;> linarith
  have habs : 0 ≤ |trend_slope| := abs_nonneg trend_slope
  have ht1 : (0 : ℚ) ≤ max 0 (100 - |trend_slope| * (1/2)) := le_max_left 0 _
  have ht2 : max 0 (100 - |trend_slope| * (1/2)) ≤ (100 : ℚ) := by
    have : (0:ℚ) ≤ |trend_slope| * (1/2) := by positivity
    apply max_le <;> linarith
  have hm1 : (0 : ℚ) ≤ (max 0 (100 - error_rate * 2) + compliance_rate
      + max 0 (100 - |trend_slope| * (1/2))) / 3 := by positivity
  have hm2 : (max 0 (100 - error_rate * 2) + compliance_rate
      + max 0 (100 - |trend_slope| * (1/2))) / 3 ≤ (100 : ℚ) := by
    rw [div_le_iff₀ (by norm_num : (0:ℚ) < 3)]
    linarith
  have hb100 : ((100 : ℤ) : ℚ) = (100 : ℚ) := by norm_num
  have hE : (generate_health_score error_rate compliance_rate trend_slope).error_score
      = roundq 1 (max 0 (100 - error_rate * 2)) := rfl
  have hC : (generate_health_score error_rate compliance_rate trend_slope).compliance_score
      = roundq 1 compliance_rate := rfl
  have hT : (generate_health_score error_rate compliance_rate trend_slope).trend_score
      = roundq 1 (max 0 (100 - |trend_slope| * (1/2))) := rfl
  have hS : (generate_health_score error_rate compliance_rate trend_slope).health_score
      = roundq 1 ((max 0 (100 - error_rate * 2) + compliance_rate
          + max 0 (100 - |trend_slope| * (1/2))) / 3) := rfl
  have hst : (generate_health_score error_rate compliance_rate trend_slope).health_status
      = (if 80 ≤ (generate_health_score error_rate compliance_rate trend_slope).health_score
         then "Excellent 🟢"
         else if 60 ≤ (generate_health_score error_rate compliance_rate trend_slope).health_score
         then "Good 🟡" else "Poor 🔴") := rfl
  refine ⟨hE, hC, hT, hS, ?_, ?_, ?_, ?_, ?_, ?_, ?_⟩
  · rw [hE]; exact roundq_in_0_100 1 _ he1 he2
  · rw [hC]; exact roundq_in_0_100 1 _ h3 h4
  · rw [hT]; exact roundq_in_0_100 1 _ ht1 ht2
  · rw [hS]; exact roundq_in_0_100 1 _ hm1 hm2
  · rw [hst]
    split_ifs with hcond hcond2
    · simp [hcond]
    · constructor
      · intro hcontra; exact absurd hcontra (by decide)
      · intro hcontra; exact absurd hcontra hcond
    · constructor
      · intro hcontra; exact absurd hcontra (by decide)
      · intro hcontra; exact absurd hcontra hcond
  · rw [hst]
    split_ifs with hcond hcond2
    · constructor
      · intro hcontra; exact absurd hcontra (by decide)
      · intro hcontra; exact False.elim (by linarith [hcontra.2])
    · exact ⟨fun _ => ⟨hcond2, not_le.mp hcond⟩, fun _ => rfl⟩
    · constructor
      · intro hcontra; exact absurd hcontra (by decide)
      · intro hcontra; exact absurd hcontra.1 hcond2
  · rw [hst]
    split_ifs with hcond hcond2
    · constructor
      · intro hcontra; exact absurd hcontra (by decide)
      · intro hcontra; exact False.elim (by linarith)
    · constructor
      · intro hcontra; exact absurd hcontra (by decide)
      · intro hcontra; exact False.elim (by linarith)
    · exact ⟨fun _ => not_le.mp hcond2, fun _ => rfl⟩

/-- Witness for `health_score_spec` at `error_rate = 0`, `compliance_rate = 100`,
`trend_slope = 0`. -/
theorem health_score_spec_witness :
    (generate_health_score 0 100 0).health_score = 100 ∧
    (generate_health_score 0 100 0).health_status = "Excellent 🟢" := by
  have h := health_score_spec 0 100 0 (by norm_num) (by norm_num) (by norm_num) (by norm_num)
  have hs : (generate_health_score 0 100 0).health_score = 100 := by
    rw [h.2.2.2.1]
    norm_num [roundq, halfEven, ratFloor_eq, max_def]
  exact ⟨hs, (h.2.2.2.2.2.2.2.2.1).mpr (by rw [hs]; norm_num)⟩

/-- Claim C9: `validate_csv` performs its checks in the stated order, returns
`false` paired with the message of the first failing check (later checks are
not reached), and returns `true` with a message carrying the record count
exactly when every check passes.  It is pure: the dataset is only read. -/
theorem validate_csv_spec (df : RawDF) :
    validate_csv df =
      match firstFailure (checkResults df) with
      | some msg => (false, msg)
      | none => (true, "✅ Valid dataset: " ++ toString df.rows.length ++ " records") := by
  unfold validate_csv checkResults firstFailure
  cases h1 : df.rows.isEmpty <;>
  cases h2 : (requiredCols.filter (fun c => !df.cols.contains c)).isEmpty <;>
  cases h3 : df.latencyNumeric <;>
  cases h4 : df.statusNumeric <;>
  cases h5 : df.rows.any hasNegLatency <;>
  cases h6 : df.rows.all statusInRange <;>
  cases h7 : df.rows.any (fun r => r.endpoint.isNone) <;>
  cases h8 : df.rows.all (fun r => r.timestamp.isSome) <;>
  simp [h1, h2, h3, h4, h5, h6, h7, h8, List.find?]

theorem clean_data_mem (rows : List RawRecord) (cap : Bool) (r : RawRecord)
    (hr : r ∈ clean_data rows cap) :
    keepRow r = true ∧ ∃ x, r.latency = some x ∧ 10 ≤ x := by
  unfold clean_data at hr
  rcases List.mem_map.mp hr with ⟨r₀, hr₀, rfl⟩
  have hk : keepRow r₀ = true := (List.mem_filter.mp hr₀).2
  have hk' := hk
  unfold keepRow at hk'
  rw [Bool.and_eq_true, Bool.and_eq_true] at hk'
  obtain ⟨⟨hl, hs⟩, he⟩ := hk'
  rcases Option.isSome_iff_exists.mp hl with ⟨v, hv⟩
  constructor
  · unfold keepRow
    simp [hv, hs, he]
  · exact ⟨(if cap = true then
        v ⊓ quantile (List.filterMap (fun r => r.latency) (List.filter keepRow rows)) (99/100)
      else v) ⊔ 10, by simp [hv], le_max_right _ 10⟩

/-- Claim C2 counterexample: the dataset with latencies 10, 10, 1000 passes
validation, yet applying `clean_data` (with `cap_outliers = true`) twice does
not equal applying it once: the first pass caps the top latency at the
interpolated 99th percentile 980.2, and the second pass caps again at the new
99th percentile 960.796. -/
theorem clean_idem_counterexample :
    (validate_csv exCleanDF).1 = true ∧
    clean_data (clean_data exCleanDF.rows true) true ≠ clean_data exCleanDF.rows true := by
  have h1 : clean_data exCleanDF.rows true =
      [⟨some 0, some "/a", some 10, some 200⟩,
       ⟨some 1, some "/a", some 10, some 200⟩,
       ⟨some 2, some "/a", some (4901/5), some 200⟩] := by
    norm_num [clean_data, exCleanDF, keepRow, quantile, ratFloor_eq, List.filter,
      List.filterMap, List.insertionSort, List.orderedInsert, List.getD, max_def, min_def]
  have h2 : clean_data (clean_data exCleanDF.rows true) true =
      [⟨some 0, some "/a", some 10, some 200⟩,
       ⟨some 1, some "/a", some 10, some 200⟩,
       ⟨some 2, some "/a", some (240199/250), some 200⟩] := by
    rw [h1]
    norm_num [clean_data, keepRow, quantile, ratFloor_eq, List.filter,
      List.filterMap, List.insertionSort, List.orderedInsert, List.getD, max_def, min_def]
  refine ⟨by decide, ?_⟩
  rw [h2, h1]
  intro hcontra
  have h3 := congrArg (fun l => (l.getD 2 ⟨none, none, none, none⟩).latency) hcontra
  norm_num [List.getD] at h3

/-- Claim C2 (amended): `clean_data` with `cap_outliers = true` is not
idempotent (see `clean_idem_counterexample`): because the 99th percentile is
re-computed by interpolation on the already-capped data, a second application
can lower latencies further.  What does hold for every dataset that passes
validation: a second application preserves the record count, and pointwise it
never raises a latency — every record keeps a latency `y` with
`10 ≤ y ≤ x`, where `x ≥ 10` is its latency after the first application. -/
theorem clean_twice_spec (df : RawDF) (hv : (validate_csv df).1 = true) :
    (clean_data (clean_data df.rows true) true).length = (clean_data df.rows true).length ∧
    ∀ i (hi : i < (clean_data df.rows true).length)
      (hi2 : i < (clean_data (clean_data df.rows true) true).length),
      ∃ x y, ((clean_data df.rows true).get ⟨i, hi⟩).latency = some x ∧
        ((clean_data (clean_data df.rows true) true).get ⟨i, hi2⟩).latency = some y ∧
        10 ≤ x ∧ 10 ≤ y ∧ y ≤ x := by
  have hfilter : (clean_data df.rows true).filter keepRow = clean_data df.rows true :=
    List.filter_eq_self.mpr (fun r hr => (clean_data_mem df.rows true r hr).1)
  have hd2 : clean_data (clean_data df.rows true) true
      = (clean_data df.rows true).map (fun r =>
          { r with latency := r.latency.map (fun x =>
              x ⊓ quantile ((clean_data df.rows true).filterMap (fun r => r.latency)) (99/100)
                ⊔ 10) }) := by
    conv_lhs => rw [clean_data]
    rw [hfilter]
    simp only [if_true, reduceIte]
  constructor
  · rw [hd2, List.length_map]
  · intro i hi hi2
    have hmem : (clean_data df.rows true).get ⟨i, hi⟩ ∈ clean_data df.rows true :=
      List.get_mem _ _ _
    obtain ⟨-, x, hx, hx10⟩ := clean_data_mem df.rows true _ hmem
    refine ⟨x,
      x ⊓ quantile ((clean_data df.rows true).filterMap (fun r => r.latency)) (99/100) ⊔ 10,
      hx, ?_, hx10, le_max_right _ _, max_le (le_trans inf_le_left (le_refl x)) hx10⟩
    have hgets : (clean_data (clean_data df.rows true) true).get ⟨i, hi2⟩
        = (fun r : RawRecord =>
            { r with latency := r.latency.map (fun x =>
                x ⊓ quantile ((clean_data df.rows true).filterMap (fun r => r.latency)) (99/100)
                  ⊔ 10) }) ((clean_data df.rows true).get ⟨i, hi⟩) := by
      have := List.get_of_eq hd2 ⟨i, hi2⟩
      rw [this]
      simp [List.get_map]
    rw [hgets]
    show ((clean_data df.rows true).get ⟨i, hi⟩).latency.map (fun x =>
        x ⊓ quantile ((clean_data df.rows true).filterMap (fun r => r.latency)) (99/100) ⊔ 10)
      = some (x ⊓ quantile ((clean_data df.rows true).filterMap (fun r => r.latency)) (99/100) ⊔ 10)
    rw [hx]
    rfl

/-- Witness for `clean_twice_spec` at the concrete valid dataset `exCleanDF`,
discharging the validation hypothesis and the index bounds at index 2. -/
theorem clean_twice_spec_witness :
    (validate_csv exCleanDF).1 = true ∧
    (clean_data (clean_data exCleanDF.rows true) true).length
      = (clean_data exCleanDF.rows true).length ∧
    ∃ x y : ℚ, 10 ≤ x ∧ 10 ≤ y ∧ y ≤ x := by
  have hv : (validate_csv exCleanDF).1 = true := by decide
  have h := clean_twice_spec exCleanDF hv
  have hlen3 : (clean_data exCleanDF.rows true).length = 3 := by
    norm_num [clean_data, exCleanDF, keepRow, List.filter]
  obtain ⟨x, y, -, -, hx10, hy10, hyx⟩ :=
    h.2 2 (by rw [hlen3]; norm_num) (by rw [h.1, hlen3]; norm_num)
  exact ⟨hv, h.1, x, y, hx10, hy10, hyx⟩

/-- Claim C5: the baseline equals the mean latency of the records flagged
normal whenever at least one record is flagged normal — and then depends only
on the normal records' latencies, never on the anomalous ones — and equals
the 25th percentile of all latencies when no record is flagged normal. -/
theorem baseline_spec (rows : List ARecord) :
    ((rows.filter (fun r => r.is_anomaly == false)) ≠ [] →
      baseline_latency rows
        = meanQ ((rows.filter (fun r => r.is_anomaly == false)).map (fun r => r.latency))) ∧
    ((rows.filter (fun r => r.is_anomaly == false)) = [] →
      baseline_latency rows = quantile (rows.map (fun r => r.latency)) (1/4)) ∧
    (∀ rows' : List ARecord,
      (rows.filter (fun r => r.is_anomaly == false)) ≠ [] →
      (rows.filter (fun r => r.is_anomaly == false)).map (fun r => r.latency)
        = (rows'.filter (fun r => r.is_anomaly == false)).map (fun r => r.latency) →
      baseline_latency rows = baseline_latency rows') := by
  have hb : ∀ l : List ARecord, (l.filter (fun r => r.is_anomaly == false)) ≠ [] →
      baseline_latency l
        = meanQ ((l.filter (fun r => r.is_anomaly == false)).map (fun r => r.latency)) := by
    intro l h
    unfold baseline_latency
    rw [if_neg]
    simpa using h
  refine ⟨hb rows, ?_, ?_⟩
  · intro h
    unfold baseline_latency
    rw [if_pos]
    simpa using h
  · intro rows' hne hmap
    have hne' : (rows'.filter (fun r => r.is_anomaly == false)) ≠ [] := by
      intro hcontra
      rw [hcontra] at hmap
      simp only [List.map_nil, List.map_eq_nil] at hmap
      exact hne hmap
    rw [hb rows hne, hb rows' hne', hmap]

/-- Witness for `baseline_spec`: with one normal record of latency 100 and
one anomalous record of latency 1000, the baseline is 100, and replacing the
anomalous record's latency by 5000 does not change the baseline. -/
theorem baseline_spec_witness :
    baseline_latency exBaselineRows = 100 ∧
    baseline_latency exBaselineRows = baseline_latency [⟨100, false⟩, ⟨5000, true⟩] := by
  constructor
  · have h := (baseline_spec exBaselineRows).1 (by decide)
    rw [h]
    norm_num [exBaselineRows, meanQ, List.filter]
  · exact (baseline_spec exBaselineRows).2.2 [⟨100, false⟩, ⟨5000, true⟩] (by decide) (by decide)

theorem mem_uniqueKeys (l : List String) (x : String) : x ∈ uniqueKeys l ↔ x ∈ l := by
  induction l with
  | nil => simp [uniqueKeys]
  | cons e rest ih =>
    by_cases hx : x = e
    · simp [uniqueKeys, hx]
    · simp [uniqueKeys, List.mem_filter, hx, ih, bne_iff_ne]

theorem nodup_uniqueKeys (l : List String) : (uniqueKeys l).Nodup := by
  induction l with
  | nil => simp [uniqueKeys]
  | cons e rest ih =>
    refine List.nodup_cons.mpr ⟨?_, List.Nodup.filter _ ih⟩
    intro hmem
    have h := (List.mem_filter.mp hmem).2
    simp at h

theorem lookup_map_key {β : Type} (f : String → β) (keys : List String) (ep : String) :
    (ep ∈ keys → (keys.map (fun k => (k, f k))).lookup ep = some (f ep)) ∧
    (ep ∉ keys → (keys.map (fun k => (k, f k))).lookup ep = none) := by
  induction keys with
  | nil => exact ⟨fun h => absurd h (List.not_mem_nil ep), fun _ => rfl⟩
  | cons k t ih =>
    constructor
    · intro hmem
      by_cases hk : ep = k
      · subst hk
        simp [List.lookup]
      · have hmem' : ep ∈ t := by
          rcases List.mem_cons.mp hmem with h | h
          · exact absurd h hk
          · exact h
        simp only [List.map_cons, List.lookup, beq_eq_false_iff_ne.mpr hk]
        exact ih.1 hmem'
    · intro hmem
      have h1 : ep ≠ k := fun h => hmem (h ▸ List.mem_cons_self k t)
      have h2 : ep ∉ t := fun h => hmem (List.mem_cons_of_mem k h)
      simp only [List.map_cons, List.lookup, beq_eq_false_iff_ne.mpr h1]
      exact ih.2 h2

/-- Claim C1 counterexample: with baseline 100000 and hourly rate 1, the
anomaly set `exRoiAnoms` gets `wasted_hours = -0.03` for endpoint `/a`
(the claim's `max(0, ·)` formula gives 0: the code does not floor negative
differences) and `wasted_hours = 0.01` for `/b` (the claim's unrounded
formula gives 49/3600: the code rounds to 2 decimals). -/
theorem roi_potential_counterexample :
    ((calculate_roi_potential exRoiAnoms 100000 1).lookup "/a").map (fun e => e.wasted_hours)
      = some (-3/100) ∧
    ((calculate_roi_potential exRoiAnoms 100000 1).lookup "/b").map (fun e => e.wasted_hours)
      = some (1/100) ∧
    (-3/100 : ℚ) ≠ max 0 ((10 : ℚ) - 100000) / 3600000 ∧
    (1/100 : ℚ) ≠ max 0 ((149000 : ℚ) - 100000) / 3600000 := by
  refine ⟨?_, ?_, by norm_num [max_def], by norm_num [max_def]⟩
  · simp [calculate_roi_potential, roiEntryFor, exRoiAnoms, uniqueKeys,
      List.filter, List.lookup]
    norm_num [roundq, halfEven, ratFloor_eq]
  · simp [calculate_roi_potential, roiEntryFor, exRoiAnoms, uniqueKeys,
      List.filter, List.lookup]
    norm_num [roundq, halfEven, ratFloor_eq]

/-- Claim C1 (amended): the per-endpoint ROI table has exactly one entry per
endpoint occurring among the anomalies; its `wasted_hours` is the sum of
`latency_ms - baseline` over that endpoint's anomalies — negative
differences are NOT floored at 0 — divided by 3,600,000 and rounded
half-even to 2 decimals; its `potential_savings` is the unrounded wasted
hours times the hourly rate, rounded to 2 decimals; the metrics.py version
also stores the anomaly count, while the app.py duplicate stores only the
two rounded figures. -/
theorem roi_potential_spec (anomalies : List Anom) (baseline hourly_rate : ℚ) (ep : String) :
    (ep ∈ anomalies.map (fun a => a.endpoint) →
      (calculate_roi_potential anomalies baseline hourly_rate).lookup ep
        = some ⟨roundq 2 ((((anomalies.filter (fun a => a.endpoint == ep)).map
              (fun a => a.latency - baseline)).sum) / 3600000),
            roundq 2 (((((anomalies.filter (fun a => a.endpoint == ep)).map
              (fun a => a.latency - baseline)).sum) / 3600000) * hourly_rate),
            (anomalies.filter (fun a => a.endpoint == ep)).length⟩ ∧
      (app_calculate_roi_potential anomalies baseline hourly_rate).lookup ep
        = some ⟨roundq 2 ((((anomalies.filter (fun a => a.endpoint == ep)).map
              (fun a => a.latency - baseline)).sum) / 3600000),
            roundq 2 (((((anomalies.filter (fun a => a.endpoint == ep)).map
              (fun a => a.latency - baseline)).sum) / 3600000) * hourly_rate)⟩) ∧
    (ep ∉ anomalies.map (fun a => a.endpoint) →
      (calculate_roi_potential anomalies baseline hourly_rate).lookup ep = none) ∧
    ((calculate_roi_potential anomalies baseline hourly_rate).map Prod.fst).Nodup := by
  refine ⟨?_, ?_, ?_⟩
  · intro hmem
    have hkeys := (mem_uniqueKeys (anomalies.map (fun a => a.endpoint)) ep).mpr hmem
    constructor
    · rw [calculate_roi_potential,
        (lookup_map_key (roiEntryFor anomalies baseline hourly_rate) _ ep).1 hkeys]
      unfold roiEntryFor
      norm_num
    · rw [app_calculate_roi_potential,
        (lookup_map_key (app_roiEntryFor anomalies baseline hourly_rate) _ ep).1 hkeys]
      unfold app_roiEntryFor
      norm_num
  · intro hmem
    have hkeys : ep ∉ uniqueKeys (anomalies.map (fun a => a.endpoint)) :=
      fun h => hmem ((mem_uniqueKeys _ ep).mp h)
    rw [calculate_roi_potential]
    exact (lookup_map_key (roiEntryFor anomalies baseline hourly_rate) _ ep).2 hkeys
  · rw [calculate_roi_potential, List.map_map]
    have hcomp : (Prod.fst ∘ fun endpoint =>
        (endpoint, roiEntryFor anomalies baseline hourly_rate endpoint)) = id := rfl
    rw [hcomp, List.map_id]
    exact nodup_uniqueKeys _

/-- Witness for `roi_potential_spec`: a single anomaly 3,600,000 ms above the
baseline at 60 USD/hour yields the entry (1 wasted hour, 60 USD, count 1),
and an endpoint absent from the anomalies has no entry. -/
theorem roi_potential_spec_witness :
    (calculate_roi_potential [⟨"/x", 3600100⟩] 100 60).lookup "/x" = some ⟨1, 60, 1⟩ ∧
    (calculate_roi_potential [⟨"/x", 3600100⟩] 100 60).lookup "/y" = none := by
  have h := roi_potential_spec [⟨"/x", 3600100⟩] 100 60 "/x"
  have h2 := roi_potential_spec [⟨"/x", 3600100⟩] 100 60 "/y"
  constructor
  · rw [(h.1 (by decide)).1]
    simp [List.filter]
    norm_num [roundq, halfEven, ratFloor_eq]
  · exact h2.2.1 (by decide)

/-- Claim C3 as stated fails on the app.py copy of `calculate_endpoint_metrics`
(src/app.py lines 168-181, the one the dashboard calls): it counts
`Status == 500` only, so a single 502 response yields `Error_Count = 0`
although one record has status ≥ 500.  The metrics.py version counts
`Status >= 500` as the claim says. -/
theorem endpoint_metrics_counterexample :
    ((app_calculate_endpoint_metrics exLogRows).lookup "/a").map (fun m => m.Error_Count)
      = some 0 ∧
    (exLogRows.filter (fun r => r.endpoint == "/a")).countP
      (fun r => decide ((500 : ℚ) ≤ r.status)) = 1 ∧
    ((calculate_endpoint_metrics exLogRows).lookup "/a").map (fun m => m.Error_Count)
      = some 1 := by
  have hb : ((502 : ℚ) == (500 : ℚ)) = false := by
    rw [beq_eq_false_iff_ne]
    norm_num
  refine ⟨?_, ?_, ?_⟩
  · simp [app_calculate_endpoint_metrics, app_epMetricsFor, exLogRows, uniqueKeys,
      List.filter, List.lookup, List.countP, List.countP.go, hb]
  · simp [exLogRows, List.filter, List.countP, List.countP.go]
    norm_num
  · simp [calculate_endpoint_metrics, epMetricsFor, exLogRows, uniqueKeys,
      List.filter, List.lookup, List.countP, List.countP.go]
    norm_num

/-- Claim C3 (amended): in the metrics.py `calculate_endpoint_metrics` table,
`Error_Count` of an endpoint is the number of its records with status ≥ 500
(all 5xx codes) and `Error_Rate` is `Error_Count / Total_Requests * 100`
rounded to 2 decimals; the app.py duplicate computes the same table except
that its `Error_Count` counts only records with status exactly 500. -/
theorem endpoint_metrics_spec (rows : List LogRow) (ep : String)
    (hmem : ep ∈ rows.map (fun r => r.endpoint)) :
    (calculate_endpoint_metrics rows).lookup ep = some (epMetricsFor rows ep) ∧
    (epMetricsFor rows ep).Error_Count
      = (rows.filter (fun r => r.endpoint == ep)).countP
          (fun r => decide ((500 : ℚ) ≤ r.status)) ∧
    (epMetricsFor rows ep).Error_Rate
      = roundq 2 (((((rows.filter (fun r => r.endpoint == ep)).countP
            (fun r => decide ((500 : ℚ) ≤ r.status))) : ℚ)
          / (((rows.filter (fun r => r.endpoint == ep)).length) : ℚ)) * 100) ∧
    (epMetricsFor rows ep).Total_Requests = (rows.filter (fun r => r.endpoint == ep)).length ∧
    (app_calculate_endpoint_metrics rows).lookup ep = some (app_epMetricsFor rows ep) ∧
    (app_epMetricsFor rows ep).Error_Count
      = (rows.filter (fun r => r.endpoint == ep)).countP (fun r => r.status == (500 : ℚ)) := by
  have hkeys := (mem_uniqueKeys (rows.map (fun r => r.endpoint)) ep).mpr hmem
  refine ⟨?_, rfl, rfl, rfl, ?_, rfl⟩
  · rw [calculate_endpoint_metrics]
    exact (lookup_map_key (epMetricsFor rows) _ ep).1 hkeys
  · rw [app_calculate_endpoint_metrics]
    exact (lookup_map_key (app_epMetricsFor rows) _ ep).1 hkeys

/-- Witness for `endpoint_metrics_spec` at the single-502-record table. -/
theorem endpoint_metrics_spec_witness :
    (calculate_endpoint_metrics exLogRows).lookup "/a" = some (epMetricsFor exLogRows "/a") ∧
    (epMetricsFor exLogRows "/a").Error_Count = 1 := by
  have h := endpoint_metrics_spec exLogRows "/a" (by decide)
  refine ⟨h.1, ?_⟩
  rw [h.2.1]
  simp [exLogRows, List.filter, List.countP, List.countP.go]
  norm_num

/-- Claim C4 counterexample: the metrics.py `calculate_anomaly_severity`
stores the clipped score rounded to 1 decimal — at latency 4 and baseline 3
it returns 33.3, not the claimed `clip((4-3)/max(3,1)*100, 0, 100) = 100/3`;
the app.py duplicate divides by `baseline` itself, so at latency 1.25 and
baseline 0.5 it returns 100 where the claimed formula gives 75. -/
theorem severity_counterexample :
    (calculate_anomaly_severity [⟨"/a", 4⟩] 3).map Prod.snd = [333/10] ∧
    (333/10 : ℚ) ≠ clipQ (((4 : ℚ) - 3) / max 3 1 * 100) 0 100 ∧
    (app_calculate_anomaly_severity [⟨"/a", 5/4⟩] (1/2)).map Prod.snd = [100] ∧
    (100 : ℚ) ≠ clipQ (((5/4 : ℚ) - 1/2) / max (1/2) 1 * 100) 0 100 := by
  refine ⟨?_, by norm_num [clipQ, max_def, min_def], ?_,
    by norm_num [clipQ, max_def, min_def]⟩
  · simp [calculate_anomaly_severity]
    norm_num [clipQ, roundq, halfEven, ratFloor_eq, max_def, min_def]
  · simp [app_calculate_anomaly_severity]
    norm_num [clipQ, roundq, halfEven, ratFloor_eq, max_def, min_def]

/-- Claim C4 (amended): every anomalous record's severity score equals
`clip((latency_ms - baseline) / max(baseline, 1) * 100, 0, 100)` rounded to
1 decimal in the metrics.py version; the app.py duplicate divides by
`baseline` itself and therefore agrees with it whenever `baseline ≥ 1`; and
for `baseline > 0` and `latency ≥ 0`, every stored score of either version
lies in [0, 100] (the clip in fact guarantees that unconditionally). -/
theorem severity_spec (anomalies : List Anom) (baseline : ℚ) :
    calculate_anomaly_severity anomalies baseline
      = anomalies.map (fun a =>
          (a, roundq 1 (clipQ ((a.latency - baseline) / max baseline 1 * 100) 0 100))) ∧
    (1 ≤ baseline →
      app_calculate_anomaly_severity anomalies baseline
        = calculate_anomaly_severity anomalies baseline) ∧
    (∀ a s, 0 < baseline → 0 ≤ a.latency →
      ((a, s) ∈ calculate_anomaly_severity anomalies baseline ∨
        (a, s) ∈ app_calculate_anomaly_severity anomalies baseline) →
      0 ≤ s ∧ s ≤ 100) := by
  refine ⟨rfl, ?_, ?_⟩
  · intro hb
    unfold app_calculate_anomaly_severity calculate_anomaly_severity
    rw [max_eq_left hb]
  · intro a s hb hlat hmem
    have hs : ∃ t : ℚ, s = roundq 1 (clipQ t 0 100) := by
      rcases hmem with h | h
      · rcases List.mem_map.mp h with ⟨a₀, -, heq⟩
        exact ⟨_, (congrArg Prod.snd heq).symm⟩
      · rcases List.mem_map.mp h with ⟨a₀, -, heq⟩
        exact ⟨_, (congrArg Prod.snd heq).symm⟩
    rcases hs with ⟨t, rfl⟩
    have h0 : 0 ≤ clipQ t 0 100 := le_min (le_max_right t 0) (by norm_num)
    have h100 : clipQ t 0 100 ≤ 100 := min_le_right _ _
    exact roundq_in_0_100 1 _ h0 h100

/-- Witness for `severity_spec`: at latency 4 and baseline 3 the stored score
is 33.3 and lies in [0, 100]; at baseline 3 ≥ 1 the app.py duplicate agrees
with the metrics.py version. -/
theorem severity_spec_witness :
    ((⟨"/a", 4⟩ : Anom), (333/10 : ℚ)) ∈ calculate_anomaly_severity [⟨"/a", 4⟩] 3 ∧
    (0 ≤ (333/10 : ℚ) ∧ (333/10 : ℚ) ≤ 100) ∧
    app_calculate_anomaly_severity [⟨"/a", 4⟩] 3 = calculate_anomaly_severity [⟨"/a", 4⟩] 3 := by
  have hmem : ((⟨"/a", 4⟩ : Anom), (333/10 : ℚ)) ∈ calculate_anomaly_severity [⟨"/a", 4⟩] 3 := by
    simp [calculate_anomaly_severity]
    norm_num [clipQ, roundq, halfEven, ratFloor_eq, max_def, min_def]
  have h := (severity_spec [⟨"/a", 4⟩] 3).2.2 ⟨"/a", 4⟩ (333/10)
    (by norm_num) (by norm_num) (Or.inl hmem)
  exact ⟨hmem, h, (severity_spec [⟨"/a", 4⟩] 3).2.1 (by norm_num)⟩

theorem find?_first {α : Type} (p : α → Bool) (l : List α) :
    ∀ i (hi : i < l.length), p (l.get ⟨i, hi⟩) = true →
    ∃ j, ∃ hj : j < l.length, j ≤ i ∧ p (l.get ⟨j, hj⟩) = true ∧
      (∀ k (hk : k < j), p (l.get ⟨k, Nat.lt_trans hk hj⟩) = false) ∧
      l.find? p = some (l.get ⟨j, hj⟩) := by
  induction l with
  | nil => intro i hi; exact absurd hi (by simp)
  | cons a t ih =>
    intro i hi hp
    by_cases ha : p a = true
    · refine ⟨0, by simp, Nat.zero_le i, ha, ?_, ?_⟩
      · intro k hk
        exact absurd hk (Nat.not_lt_zero k)
      · simp [List.find?_cons_of_pos _ ha]
    · have ha' : p a = false := by
        revert ha
        cases p a <;> simp
      cases i with
      | zero => exact absurd hp ha
      | succ i' =>
        have hi' : i' < t.length := Nat.lt_of_succ_lt_succ hi
        have hp' : p (t.get ⟨i', hi'⟩) = true := hp
        obtain ⟨j, hj, hji, hpj, hmin, hfind⟩ := ih i' hi' hp'
        refine ⟨j + 1, Nat.succ_lt_succ hj, Nat.succ_le_succ hji, hpj, ?_, ?_⟩
        · intro k hk
          cases k with
          | zero => exact ha'
          | succ k' => exact hmin k' (Nat.lt_of_succ_lt_succ hk)
        · rw [List.find?_cons_of_neg _ (by simp [ha']), hfind]
          rfl

/-- Claim C7: `get_strategy_for_endpoint` lower-cases the endpoint and
returns the plan of the first rule group of `STRATEGY_PATTERNS`, in
table-definition order, any of whose pipe-delimited keywords occurs as a
substring; matching is case-insensitive (`/API/V1/Search/Query` gets the
`search|query` plan) and first-match (a group is chosen only when no earlier
group matches); when no keyword of any group matches, the generic fallback
three-step plan is returned. -/
theorem strategy_spec (ep : String) :
    get_strategy_for_endpoint "/API/V1/Search/Query"
      = ("/API/V1/Search/Query", planFor searchQueryStrategy) ∧
    (get_strategy_for_endpoint ep).1 = ep ∧
    ((∀ g ∈ STRATEGY_PATTERNS, groupMatches (lowerStr ep) g.1 = false) →
      get_strategy_for_endpoint ep = (ep, fallbackPlan ep)) ∧
    (∀ i (hi : i < STRATEGY_PATTERNS.length),
      groupMatches (lowerStr ep) (STRATEGY_PATTERNS.get ⟨i, hi⟩).1 = true →
      ∃ j, ∃ hj : j < STRATEGY_PATTERNS.length, j ≤ i ∧
        groupMatches (lowerStr ep) (STRATEGY_PATTERNS.get ⟨j, hj⟩).1 = true ∧
        (∀ k (hk : k < j),
          groupMatches (lowerStr ep) (STRATEGY_PATTERNS.get ⟨k, Nat.lt_trans hk hj⟩).1
            = false) ∧
        get_strategy_for_endpoint ep = (ep, planFor (STRATEGY_PATTERNS.get ⟨j, hj⟩).2)) := by
  refine ⟨by decide, ?_, ?_, ?_⟩
  · simp only [get_strategy_for_endpoint]
    cases hfind : STRATEGY_PATTERNS.find? (fun ps => groupMatches (lowerStr ep) ps.1) <;>
      simp [hfind]
  · intro hall
    simp only [get_strategy_for_endpoint]
    rw [List.find?_eq_none.mpr (fun g hg => by simp [hall g hg])]
  · intro i hi hp
    obtain ⟨j, hj, hji, hpj, hmin, hfind⟩ :=
      find?_first (fun ps => groupMatches (lowerStr ep) ps.1) STRATEGY_PATTERNS i hi hp
    refine ⟨j, hj, hji, hpj, hmin, ?_⟩
    simp only [get_strategy_for_endpoint]
    rw [hfind]

/-- Witness for `strategy_spec`: `/healthz` matches no rule group and gets
the fallback plan; `/API/V1/Search/Query` matches the first group at index 0
(no earlier group to beat) and gets the `search|query` plan. -/
theorem strategy_spec_witness :
    get_strategy_for_endpoint "/healthz" = ("/healthz", fallbackPlan "/healthz") ∧
    get_strategy_for_endpoint "/API/V1/Search/Query"
      = ("/API/V1/Search/Query", planFor searchQueryStrategy) ∧
    (∃ j, ∃ hj : j < STRATEGY_PATTERNS.length, j ≤ 0 ∧
      groupMatches (lowerStr "/API/V1/Search/Query") (STRATEGY_PATTERNS.get ⟨j, hj⟩).1
        = true ∧
      (∀ k (hk : k < j),
        groupMatches (lowerStr "/API/V1/Search/Query")
          (STRATEGY_PATTERNS.get ⟨k, Nat.lt_trans hk hj⟩).1 = false) ∧
      get_strategy_for_endpoint "/API/V1/Search/Query"
        = ("/API/V1/Search/Query", planFor (STRATEGY_PATTERNS.get ⟨j, hj⟩).2)) := by
  exact ⟨(strategy_spec "/healthz").2.2.1 (by decide),
    (strategy_spec "/healthz").1,
    (strategy_spec "/API/V1/Search/Query").2.2.2 0 (by decide) (by decide)⟩

theorem sla_template_getD (lvl : String) :
    (SLA_TEMPLATES lvl).getD standardSLA = claimTemplateFor lvl := by
  unfold claimTemplateFor SLA_TEMPLATES namedSLALevels
  by_cases h1 : lvl = "aggressive"
  · simp [h1]
  · by_cases h2 : lvl = "standard"
    · simp [h1, h2]
    · by_cases h3 : lvl = "relaxed"
      · simp [h1, h2, h3]
      · simp [h1, h2, h3]

/-- Claim C8: `evaluate_against_sla` uses the thresholds of the named SLA
template when the level is one of aggressive/standard/relaxed, and the
standard template's thresholds for any other name; each of P50/P95/P99 is
reported compliant iff its value is ≤ the corresponding template threshold,
and `all_compliant` holds iff all three are compliant. -/
theorem sla_eval_spec (lvl : String) (v50 v95 v99 : ℚ) :
    ((evaluate_against_sla ⟨some v50, some v95, some v99⟩ lvl).p50_compliant = true
      ↔ v50 ≤ (claimTemplateFor lvl).p50) ∧
    ((evaluate_against_sla ⟨some v50, some v95, some v99⟩ lvl).p95_compliant = true
      ↔ v95 ≤ (claimTemplateFor lvl).p95) ∧
    ((evaluate_against_sla ⟨some v50, some v95, some v99⟩ lvl).p99_compliant = true
      ↔ v99 ≤ (claimTemplateFor lvl).p99) ∧
    ((evaluate_against_sla ⟨some v50, some v95, some v99⟩ lvl).all_compliant = true
      ↔ (v50 ≤ (claimTemplateFor lvl).p50 ∧ v95 ≤ (claimTemplateFor lvl).p95 ∧
          v99 ≤ (claimTemplateFor lvl).p99)) := by
  simp only [evaluate_against_sla, sla_template_getD, Option.getD_some]
  simp [Bool.and_eq_true, and_assoc]

/-- Claim C10: a percentile key missing from the dict handed to
`evaluate_against_sla` is read as 0 via `.get(key, 0)` and is therefore
reported compliant against every template's (positive) threshold; in
particular an empty percentiles dict yields `all_compliant = true` for every
template name. -/
theorem sla_missing_default_spec (lvl : String) (p : PercentilesDict) :
    (p.P50 = none → (evaluate_against_sla p lvl).p50_compliant = true) ∧
    (p.P95 = none → (evaluate_against_sla p lvl).p95_compliant = true) ∧
    (p.P99 = none → (evaluate_against_sla p lvl).p99_compliant = true) ∧
    (evaluate_against_sla ⟨none, none, none⟩ lvl).all_compliant = true := by
  have hT : 0 ≤ ((SLA_TEMPLATES lvl).getD standardSLA).p50 ∧
      0 ≤ ((SLA_TEMPLATES lvl).getD standardSLA).p95 ∧
      0 ≤ ((SLA_TEMPLATES lvl).getD standardSLA).p99 := by
    unfold SLA_TEMPLATES standardSLA
    split_ifs <;> norm_num
  refine ⟨?_, ?_, ?_, ?_⟩
  · intro h
    simp only [evaluate_against_sla, h, Option.getD_none, decide_eq_true_eq]
    exact hT.1
  · intro h
    simp only [evaluate_against_sla, h, Option.getD_none, decide_eq_true_eq]
    exact hT.2.1
  · intro h
    simp only [evaluate_against_sla, h, Option.getD_none, decide_eq_true_eq]
    exact hT.2.2
  · simp only [evaluate_against_sla, Option.getD_none, Bool.and_eq_true, decide_eq_true_eq]
    exact ⟨⟨hT.1, hT.2.1⟩, hT.2.2⟩

/-- Witness for `sla_missing_default_spec` at the unknown template name
`bogus`: a dict without P50 is P50-compliant, and the empty dict is fully
compliant. -/
theorem sla_missing_default_spec_witness :
    (evaluate_against_sla ⟨none, some 999999, none⟩ "bogus").p50_compliant = true ∧
    (evaluate_against_sla ⟨none, none, none⟩ "bogus").all_compliant = true := by
  exact ⟨(sla_missing_default_spec "bogus" ⟨none, some 999999, none⟩).1 rfl,
    (sla_missing_default_spec "bogus" ⟨none, none, none⟩).2.2.2⟩
